import Mathlib

/-!
Shallow embedding of the Orchestrix API alert/metric core
(github.com/Felipeness/orchestrix-api), covering:

* the IEEE-754 comparison semantics used by the threshold operators
  (`internal/alertrule` evaluator and `internal/core/domain/alertrule.go`),
* the `${var}` template pipeline (`convertTemplateDelimiters`,
  `renderTemplate`, `renderInputTemplate` in the alertrule evaluator),
* the alert-rule evaluator and workflow trigger bridge
  (`Evaluator.EvaluateMetric` / `triggerAlert` / `triggerWorkflow`),
* the service layer (`AlertRuleService`, `AlertService`, `MetricService`),
* the SQL queries backing them (`GetAlertRulesForMetric`, `CreateExecution`,
  `CreateAlert`, schema constraints from `sql/migrations`).

Machine floats are modeled as `F64` (NaN plus finite values as exact
rationals); machine integers and UUIDs as `Nat`/`Int`; timestamps as `Int`
nanoseconds since epoch (Go `time.Time`/`time.Duration` resolution); JSON
payloads by their parse results.  External I/O (Postgres, the Temporal
engine) is modeled by explicit state passing and oracle parameters.
-/

namespace Orchestrix

/-- Model of a Go `float64` restricted to the values the pipeline
manipulates: NaN, or a finite value represented as an exact rational.
(Infinities and signed zero never arise in the claims under study;
every finite double is an exact rational, so `ℚ` is a faithful carrier
for finite values and their total order.) -/
inductive F64 where
  | nan : F64
  | fin : ℚ → F64
deriving DecidableEq, Repr

namespace F64

/-- Go `<` on float64: any comparison involving NaN is false. -/
def flt : F64 → F64 → Bool
  | fin a, fin b => a < b
  | _, _ => false

/-- Go `<=` on float64: any comparison involving NaN is false. -/
def fle : F64 → F64 → Bool
  | fin a, fin b => a ≤ b
  | _, _ => false

/-- Go `>` on float64. -/
def fgt (a b : F64) : Bool := flt b a

/-- Go `>=` on float64. -/
def fge (a b : F64) : Bool := fle b a

/-- Go `==` on float64: NaN is equal to nothing, including itself. -/
def feq : F64 → F64 → Bool
  | fin a, fin b => a == b
  | _, _ => false

/-- Go `!=` on float64: the negation of `==`, hence TRUE whenever either
side is NaN (IEEE-754 semantics, as implemented by the Go compiler). -/
def fne (a b : F64) : Bool := !(feq a b)

/-- String form of a float as Go `fmt` `%v` prints it inside templates.
Exact for NaN and for integer-valued floats, the only values formatted by
the concrete inputs of this development; other finite values fall back to
the rational literal (Go would print the shortest round-tripping decimal). -/
def fmt : F64 → String
  | nan => "NaN"
  | fin q => if q.den = 1 then toString q.num else toString q

end F64

/-- The `operators` map of the alertrule evaluator (unnamed/part_000
lines 79-86), keyed by operator name. -/
def operators : List (String × (F64 → F64 → Bool)) :=
  [ ("gt",  fun v t => F64.fgt v t)
  , ("gte", fun v t => F64.fge v t)
  , ("lt",  fun v t => F64.flt v t)
  , ("lte", fun v t => F64.fle v t)
  , ("eq",  fun v t => F64.feq v t)
  , ("ne",  fun v t => F64.fne v t) ]

/-- Lookup-and-apply helper for `operators` (the evaluator does
`compareFn, ok := operators[condition.Operator]` then `compareFn(v, t)`). -/
def applyOperator (op : String) (v t : F64) : Option Bool :=
  (operators.lookup op).map (fun f => f v t)

/-! ## Template pipeline

`renderTemplate` (part_000 lines 361-376) first rewrites `${var}` to
`{{.var}}` with the regex `\$\{([^}]+)\}` (`convertTemplateDelimiters`),
then parses and executes the result as a Go `text/template`.  We model the
fragment of `text/template` reachable from this pipeline: literal text and
`{{ .ident }}` field actions over a `map[string]interface{}` context.  An
unterminated `{{` or an action that is not a plain field access is a parse
error; a field absent from the context renders as `<no value>` (the
`text/template` default for missing map keys). -/

/-- One regex replacement pass of `convertTemplateDelimiters`:
scan for `${`, then a nonempty run of non-`}` characters, then `}`;
each match `${name}` is replaced by `{{.name}}`, everything else is
copied verbatim. `convertVar` scans for the closing brace, with the
accumulated name characters in reverse. -/
def convertDelims : List Char → List Char
  | [] => []
  | '$' :: '{' :: rest => convertVar rest []
  | c :: rest => c :: convertDelims rest
where
  /-- Scanning state after `${`: `acc` holds name characters in reverse. -/
  convertVar : List Char → List Char → List Char
  | [], acc => '$' :: '{' :: acc.reverse
  | '}' :: rest, [] => '$' :: '{' :: '}' :: convertDelims rest
  | '}' :: rest, acc =>
      '{' :: '{' :: '.' :: (acc.reverse ++ '}' :: '}' :: convertDelims rest)
  | c :: rest, acc => convertVar rest (c :: acc)

/-- Parsed `text/template` node: literal text or a `{{.name}}` field. -/
inductive Tok where
  | lit : List Char → Tok
  | field : String → Tok
deriving DecidableEq, Repr

/-- Go identifier characters admissible in a field name after the dot. -/
def isIdentChar (c : Char) : Bool := c.isAlphanum || c = '_'

/-- Parse the text between `{{` and `}}`: optional spaces, a dot, and a
nonempty identifier; anything else is a template parse error. -/
def parseActionName (action : List Char) : Except Unit String :=
  match action.dropWhile (· = ' ') with
  | '.' :: rest =>
      let name := rest.takeWhile isIdentChar
      let tail := rest.dropWhile isIdentChar
      if name.isEmpty then .error ()
      else if tail.dropWhile (· = ' ') ≠ [] then .error ()
      else .ok (String.mk name)
  | _ => .error ()

mutual

/-- Template text mode of the `text/template` parser model; `acc` holds
the pending literal characters in reverse. -/
def goParseText : List Char → List Char → Except Unit (List Tok)
  | [], acc => .ok (if acc.isEmpty then [] else [Tok.lit acc.reverse])
  | '{' :: '{' :: rest, acc => do
      let toks ← goParseAct rest []
      pure (if acc.isEmpty then toks else Tok.lit acc.reverse :: toks)
  | c :: rest, acc => goParseText rest (c :: acc)

/-- Action mode, scanning for the closing `}}`; reaching the end of input
first is the `unclosed action` parse error. -/
def goParseAct : List Char → List Char → Except Unit (List Tok)
  | [], _ => .error ()
  | '}' :: '}' :: rest, acc => do
      let name ← parseActionName acc.reverse
      let toks ← goParseText rest []
      pure (Tok.field name :: toks)
  | c :: rest, acc => goParseAct rest (c :: acc)

end

/-- Values a template context entry can hold (string form plus the raw
float for `value`/`threshold`; other Go values never reach the fragment of
the pipeline exercised here). -/
inductive TplVal where
  | str : String → TplVal
  | num : F64 → TplVal
deriving DecidableEq, Repr

/-- String the executed template writes for a context value (`fmt` `%v`). -/
def TplVal.fmt : TplVal → String
  | str s => s
  | num x => x.fmt

/-- Execute parsed template nodes against a context map; a missing key
renders as `<no value>`. -/
def goExecute (toks : List Tok) (data : List (String × TplVal)) : String :=
  match toks with
  | [] => ""
  | Tok.lit s :: rest => String.mk s ++ goExecute rest data
  | Tok.field n :: rest =>
      (match data.lookup n with
       | some v => v.fmt
       | none => "<no value>") ++ goExecute rest data

/-- The evaluator's `renderTemplate`: convert `${var}` delimiters, then
parse and execute as a Go template; any parse failure is returned as an
error (and the callers decide the fallback policy). -/
def renderTemplate (tmplStr : String) (data : List (String × TplVal)) :
    Except Unit String :=
  match goParseText (convertDelims tmplStr.toList) [] with
  | .error e => .error e
  | .ok toks => .ok (goExecute toks data)

/-- Parsed JSON value as Go `encoding/json` decodes `map[string]interface{}`
members: strings, numbers, booleans, null, and nested objects (arrays never
arise in the templates under study). -/
inductive JVal where
  | str : String → JVal
  | num : F64 → JVal
  | boolean : Bool → JVal
  | null : JVal
  | obj : List (String × JVal) → JVal
deriving Repr

mutual

/-- Per-entry switch body of the evaluator's `renderInputTemplate`
(part_000 lines 383-395), factored out of the loop for structural
recursion: render a string leaf, keeping the RAW string when rendering
fails; recurse into a nested object; pass every other value through. -/
def renderInputValue (data : List (String × TplVal)) : JVal → JVal
  | JVal.str v =>
      match renderTemplate v data with
      | .error _ => JVal.str v
      | .ok rendered => JVal.str rendered
  | JVal.obj m => JVal.obj (renderInputTemplate m data)
  | v => v

/-- The evaluator's `renderInputTemplate` (part_000 lines 379-399): apply
the switch to every entry of the map. -/
def renderInputTemplate : List (String × JVal) → List (String × TplVal) →
    List (String × JVal)
  | [], _ => []
  | (k, v) :: rest, data =>
      (k, renderInputValue data v) :: renderInputTemplate rest data

end

/-! ## Domain entities (`internal/core/domain`) -/

/-- Go `time.Duration` of one second, in nanoseconds. -/
def nsPerSecond : Int := 1000000000

/-- The `ThresholdCondition` struct: `condition_config` parsed from JSON. -/
structure ThresholdCondition where
  metric_name : String
  operator : String
  threshold : F64
deriving DecidableEq, Repr

/-- Top-level errors of `internal/core/domain/errors.go` reachable in this
development, plus a carrier for store error messages. -/
inductive DomainError where
  | invalidConditionType
  | invalidConditionConfig
  | invalidOperator
  | alertNotFound
  | alertAlreadyAcknowledged
  | alertAlreadyResolved
  | batchTooLarge
  | storeError : String → DomainError
deriving DecidableEq, Repr

/-- The `AlertRule` entity.  UUIDs are modeled as `Nat`; timestamps as `Int`
nanoseconds since epoch; `condition_config` and `trigger_input_template` by
their JSON parse results (`none` = absent or unparsable). -/
structure AlertRule where
  id : Nat
  tenantId : Nat
  name : String
  description : Option String := none
  enabled : Bool
  conditionType : String
  conditionConfig : Option ThresholdCondition
  severity : String
  alertTitleTemplate : String
  alertMessageTemplate : Option String := none
  triggerWorkflowId : Option Nat := none
  triggerInputTemplate : Option (List (String × JVal)) := none
  cooldownSeconds : Int
  lastTriggeredAt : Option Int := none
deriving Repr

/-- `AlertRule.CanTrigger` (alertrule.go lines 39-48): enabled, and either
never triggered or `time.Since(last) >= cooldown`. -/
def AlertRule.canTrigger (r : AlertRule) (now : Int) : Bool :=
  if !r.enabled then false
  else
    match r.lastTriggeredAt with
    | none => true
    | some last => decide (now - last ≥ r.cooldownSeconds * nsPerSecond)

/-- `AlertRule.ParseThresholdCondition` (alertrule.go lines 57-66). -/
def AlertRule.parseThresholdCondition (r : AlertRule) :
    Except DomainError ThresholdCondition :=
  if r.conditionType ≠ "threshold" then .error .invalidConditionType
  else
    match r.conditionConfig with
    | none => .error .invalidConditionConfig
    | some cond => .ok cond

/-- `AlertRule.EvaluateThreshold` (alertrule.go lines 69-91); note the
domain layer spells the not-equal operator `neq`. -/
def AlertRule.evaluateThreshold (r : AlertRule) (value : F64) :
    Except DomainError Bool :=
  match r.parseThresholdCondition with
  | .error e => .error e
  | .ok cond =>
    match cond.operator with
    | "gt" => .ok (F64.fgt value cond.threshold)
    | "gte" => .ok (F64.fge value cond.threshold)
    | "lt" => .ok (F64.flt value cond.threshold)
    | "lte" => .ok (F64.fle value cond.threshold)
    | "eq" => .ok (F64.feq value cond.threshold)
    | "neq" => .ok (F64.fne value cond.threshold)
    | _ => .error .invalidOperator

/-- Alert lifecycle status; `opened` models the Go constant `"open"`. -/
inductive AlertStatus where
  | opened
  | triggered
  | acknowledged
  | resolved
deriving DecidableEq, Repr

/-- The `Alert` entity (alertrule.go lines 103-121). -/
structure Alert where
  id : Nat
  tenantId : Nat
  workflowId : Option Nat := none
  executionId : Option Nat := none
  severity : String
  title : String
  message : Option String := none
  status : AlertStatus
  acknowledgedAt : Option Int := none
  acknowledgedBy : Option Nat := none
  resolvedAt : Option Int := none
  resolvedBy : Option Nat := none
  triggeredByRuleId : Option Nat := none
  triggeredWorkflowExecutionId : Option Nat := none
  source : Option String := none
deriving DecidableEq, Repr

/-- `Alert.CanAcknowledge`. -/
def Alert.canAcknowledge (a : Alert) : Bool :=
  a.status = .opened || a.status = .triggered

/-- `Alert.CanResolve`. -/
def Alert.canResolve (a : Alert) : Bool :=
  a.status = .opened || a.status = .triggered || a.status = .acknowledged

/-- `Alert.Acknowledge`: the pair mirrors Go's in-place mutation plus the
returned error (`none` = nil); on failure the receiver is untouched. -/
def Alert.acknowledge (a : Alert) (userId : Nat) (now : Int) :
    Alert × Option DomainError :=
  if !a.canAcknowledge then (a, some .alertAlreadyAcknowledged)
  else
    ({ a with status := .acknowledged,
              acknowledgedAt := some now,
              acknowledgedBy := some userId }, none)

/-- `Alert.Resolve`, same shape as `Alert.acknowledge`. -/
def Alert.resolve (a : Alert) (userId : Nat) (now : Int) :
    Alert × Option DomainError :=
  if !a.canResolve then (a, some .alertAlreadyResolved)
  else
    ({ a with status := .resolved,
              resolvedAt := some now,
              resolvedBy := some userId }, none)

/-! ## The alertrule evaluator and workflow bridge (unnamed/part_000)

Database effects are modeled by explicit state passing over `DBState`;
the Temporal engine by an oracle `engine : requestId → workflowType →
Except errMsg runId`.  Rows get server-side ids from `nextId`. -/

/-- `MetricData` (part_000 lines 32-38); label values are carried by their
string forms, which is all the pipeline observes. -/
structure MetricData where
  name : String
  value : F64
  labels : List (String × String) := []
  source : String := ""
  timestamp : Int := 0
deriving Repr

/-- Opaque injective model of `uuid.UUID.String()`. -/
def uuidStr (n : Nat) : String := toString n

/-- Opaque model of `time.Time.Format(time.RFC3339)` (Go standard library);
injective, and treated as an uninterpreted string by the pipeline. -/
def rfc3339 (t : Int) : String := "ts:" ++ toString t

/-- Opaque model of Go `fmt` `%v` for a labels map (the pipeline never
inspects this string). -/
def labelsFmt (labels : List (String × String)) : String :=
  "map[" ++ String.intercalate " " (labels.map (fun kv => kv.1 ++ ":" ++ kv.2)) ++ "]"

/-- `AlertTemplateData.ToMap` (part_000 lines 61-73) for the rule + sample
context. -/
def toTemplateData (metric : MetricData) (cond : ThresholdCondition)
    (ruleName severity : String) : List (String × TplVal) :=
  [ ("metric_name", TplVal.str metric.name)
  , ("value", TplVal.num metric.value)
  , ("threshold", TplVal.num cond.threshold)
  , ("operator", TplVal.str cond.operator)
  , ("labels", TplVal.str (labelsFmt metric.labels))
  , ("source", TplVal.str metric.source)
  , ("timestamp", TplVal.str (rfc3339 metric.timestamp))
  , ("rule_name", TplVal.str ruleName)
  , ("severity", TplVal.str severity) ]

/-- Workflow row as the bridge reads it: owner tenant and whether
`definition` contains a non-nil `steps` entry. -/
structure Workflow where
  id : Nat
  tenantId : Nat
  hasSteps : Bool := false
deriving DecidableEq, Repr

/-- Execution row (`executions` table, migrations 001 and 006). -/
structure Execution where
  id : Nat
  tenantId : Nat
  workflowId : Nat
  temporalWorkflowId : Option String := none
  temporalRunId : Option String := none
  status : String
  input : List (String × JVal) := []
  error : Option String := none
  startedAt : Option Int := none
  triggeredBy : Option String := none
deriving Repr

/-- Database state visible to the evaluator. -/
structure DBState where
  rules : List AlertRule := []
  workflows : List Workflow := []
  alerts : List Alert := []
  executions : List Execution := []
  nextId : Nat := 0
deriving Repr

/-- Error outcomes of `Evaluator.triggerWorkflow`. -/
inductive BridgeErr where
  | getWorkflow
  | tenantMismatch
  | startWorkflow : String → BridgeErr
deriving DecidableEq, Repr

/-- JSONB extraction `condition_config->>'metric_name'` (NULL when the
config is absent or unparsable). -/
def condMetricName (r : AlertRule) : Option String :=
  r.conditionConfig.map (fun c => c.metric_name)

/-- The `GetAlertRulesForMetric` SQL query (unnamed/part_022 lines 61-67):
tenant match, enabled, `condition_type = 'metric_threshold'`, matching
`metric_name`, and `last_triggered_at IS NULL OR last_triggered_at <
NOW() - cooldown_seconds`. -/
def getAlertRulesForMetric (rules : List AlertRule) (tenantId : Nat)
    (metricName : String) (now : Int) : List AlertRule :=
  rules.filter (fun r =>
    r.tenantId == tenantId && r.enabled &&
    r.conditionType == "metric_threshold" &&
    condMetricName r == some metricName &&
    (match r.lastTriggeredAt with
     | none => true
     | some last => decide (last < now - r.cooldownSeconds * nsPerSecond)))

/-- `Evaluator.evaluateRule` (part_000 lines 141-160): unmarshal the
condition, require the metric name to match, look the operator up
(unknown operator = skip with a warning), apply it. -/
def evaluateRule (rule : AlertRule) (metric : MetricData) : Except Unit Bool :=
  match rule.conditionConfig with
  | none => .error ()
  | some condition =>
    if condition.metric_name ≠ metric.name then .ok false
    else
      match operators.lookup condition.operator with
      | none => .ok false
      | some compareFn => .ok (compareFn metric.value condition.threshold)

/-- Condition as `triggerAlert` re-parses it with the error ignored
(`_ = json.Unmarshal(...)`): the Go zero value when unparsable. -/
def parsedCondition (r : AlertRule) : ThresholdCondition :=
  r.conditionConfig.getD ⟨"", "", F64.fin 0⟩

/-- `findWorkflow` models the `GetWorkflow` query. -/
def findWorkflow (ws : List Workflow) (id : Nat) : Option Workflow :=
  ws.find? (fun w => w.id == id)

/-- `Evaluator.triggerWorkflow` (part_000 lines 238-358): resolve the
workflow, check tenant ownership, build the input (rendered template or
default payload), INSERT the execution (plain insert, `CreateExecution` in
sql/queries/executions.sql lines 31-34), link it to the alert, start the
engine workflow, and reconcile status.  The returned value mirrors the Go
error. -/
def triggerWorkflow (s : DBState) (tenantId : Nat) (rule : AlertRule)
    (alert : Alert) (metric : MetricData) (templateData : List (String × TplVal))
    (engine : String → String → Except String String) (now : Int) :
    DBState × Except BridgeErr Unit :=
  match rule.triggerWorkflowId with
  | none => (s, .error .getWorkflow)
  | some workflowId =>
    match findWorkflow s.workflows workflowId with
    | none => (s, .error .getWorkflow)
    | some workflow =>
      if workflow.tenantId ≠ tenantId then (s, .error .tenantMismatch)
      else
        let workflowInput :=
          match rule.triggerInputTemplate with
          | some inputTemplate => renderInputTemplate inputTemplate templateData
          | none =>
              [ ("alert_id", JVal.str (uuidStr alert.id))
              , ("rule_id", JVal.str (uuidStr rule.id))
              , ("metric_name", JVal.str metric.name)
              , ("value", JVal.num metric.value)
              , ("labels", JVal.obj (metric.labels.map (fun kv => (kv.1, JVal.str kv.2))))
              , ("source", JVal.str metric.source) ]
        let temporalWorkflowID := "alert-" ++ uuidStr alert.id
        let execution : Execution :=
          { id := s.nextId
          , tenantId := tenantId
          , workflowId := workflowId
          , temporalWorkflowId := some temporalWorkflowID
          , status := "pending"
          , input := workflowInput
          , triggeredBy := some ("alert_rule:" ++ uuidStr rule.id) }
        let s1 : DBState :=
          { s with executions := s.executions ++ [execution], nextId := s.nextId + 1 }
        let s2 : DBState :=
          { s1 with alerts := s1.alerts.map (fun a =>
              if a.id = alert.id
              then { a with triggeredWorkflowExecutionId := some execution.id }
              else a) }
        let workflowType := if workflow.hasSteps then "DynamicWorkflow" else "ProcessWorkflow"
        match engine temporalWorkflowID workflowType with
        | .error msg =>
            ({ s2 with executions := s2.executions.map (fun e =>
                 if e.id = execution.id
                 then { e with status := "failed"
                             , error := some ("failed to start workflow: " ++ msg) }
                 else e) },
             .error (.startWorkflow msg))
        | .ok runId =>
            ({ s2 with executions := s2.executions.map (fun e =>
                 if e.id = execution.id
                 then { e with temporalRunId := some runId
                             , status := "running"
                             , startedAt := some now }
                 else e) },
             .ok ())

/-- `Evaluator.triggerAlert` (part_000 lines 163-235): render the title
(falling back to the raw template on error) and the message, INSERT the
alert (`CreateAlert`; the insert carries no status, so the row gets the
schema default `'open'`), stamp `last_triggered_at`, then invoke the
bridge when a workflow is configured.  The option in the result is the
bridge error, which the Go code only logs. -/
def triggerAlert (s : DBState) (tenantId : Nat) (rule : AlertRule)
    (metric : MetricData) (engine : String → String → Except String String)
    (now : Int) : DBState × Option BridgeErr :=
  let condition := parsedCondition rule
  let templateData := toTemplateData metric condition rule.name rule.severity
  let title :=
    match renderTemplate rule.alertTitleTemplate templateData with
    | .error _ => rule.alertTitleTemplate
    | .ok t => t
  let message :=
    match rule.alertMessageTemplate with
    | some mt =>
        if mt ≠ "" then
          match renderTemplate mt templateData with
          | .error _ => ""
          | .ok m => m
        else ""
    | none => ""
  let alert : Alert :=
    { id := s.nextId
    , tenantId := tenantId
    , severity := rule.severity
    , title := title
    , message := some message
    , status := .opened
    , source := some metric.source
    , triggeredByRuleId := some rule.id }
  let s1 : DBState := { s with alerts := s.alerts ++ [alert], nextId := s.nextId + 1 }
  let s2 : DBState :=
    { s1 with rules := s1.rules.map (fun r =>
        if r.id = rule.id then { r with lastTriggeredAt := some now } else r) }
  match rule.triggerWorkflowId with
  | some _ =>
      match triggerWorkflow s2 tenantId rule alert metric templateData engine now with
      | (s3, .error e) => (s3, some e)
      | (s3, .ok _) => (s3, none)
  | none => (s2, none)

/-- `Evaluator.EvaluateMetric` (part_000 lines 112-138): fetch the matching
rules once, then evaluate each, triggering alerts for those that fire;
per-rule failures do not abort the loop. -/
def evaluateMetric (s : DBState) (tenantId : Nat) (metric : MetricData)
    (engine : String → String → Except String String) (now : Int) : DBState :=
  (getAlertRulesForMetric s.rules tenantId metric.name now).foldl
    (fun st rule =>
      match evaluateRule rule metric with
      | .error _ => st
      | .ok false => st
      | .ok true => (triggerAlert st tenantId rule metric engine now).1)
    s

/-! ## Service layer (`internal/core/service`) -/

/-- Input of `port.AlertService.Create`. -/
structure CreateAlertInput where
  tenantId : Nat
  workflowId : Option Nat := none
  executionId : Option Nat := none
  severity : String
  title : String
  message : Option String := none
  triggeredByRuleId : Option Nat := none
  source : Option String := none
deriving Repr

/-- `AlertService.Create`: build the alert with `status = triggered` and
save it (the repo assigns nothing; the service draws the id). -/
def alertServiceCreate (alerts : List Alert) (newId : Nat)
    (input : CreateAlertInput) : List Alert × Alert :=
  let alert : Alert :=
    { id := newId
    , tenantId := input.tenantId
    , workflowId := input.workflowId
    , executionId := input.executionId
    , severity := input.severity
    , title := input.title
    , message := input.message
    , status := .triggered
    , triggeredByRuleId := input.triggeredByRuleId
    , source := input.source }
  (alerts ++ [alert], alert)

/-- Model of `AlertRepository.FindByID` over the stored list. -/
def findAlert (alerts : List Alert) (id : Nat) : Option Alert :=
  alerts.find? (fun a => a.id == id)

/-- Model of `AlertRepository.Update`: replace the row with the same id. -/
def storeUpdateAlert (alerts : List Alert) (a : Alert) : List Alert :=
  alerts.map (fun x => if x.id = a.id then a else x)

/-- `AlertService.Acknowledge`: load, apply the domain transition, persist
only on success. -/
def alertServiceAcknowledge (alerts : List Alert) (id userId : Nat)
    (now : Int) : List Alert × Except DomainError Alert :=
  match findAlert alerts id with
  | none => (alerts, .error .alertNotFound)
  | some a =>
    match a.acknowledge userId now with
    | (_, some e) => (alerts, .error e)
    | (a2, none) => (storeUpdateAlert alerts a2, .ok a2)

/-- `AlertService.Resolve`, same shape as acknowledge. -/
def alertServiceResolve (alerts : List Alert) (id userId : Nat)
    (now : Int) : List Alert × Except DomainError Alert :=
  match findAlert alerts id with
  | none => (alerts, .error .alertNotFound)
  | some a =>
    match a.resolve userId now with
    | (_, some e) => (alerts, .error e)
    | (a2, none) => (storeUpdateAlert alerts a2, .ok a2)

/-- `port.CreateAlertRuleInput` (internal/core/port/primary.go lines
145-158); note the struct has NO enabled field. -/
structure CreateAlertRuleInput where
  tenantId : Nat
  name : String
  description : Option String := none
  conditionType : String
  conditionConfig : Option ThresholdCondition := none
  severity : String
  alertTitleTemplate : String
  alertMessageTemplate : Option String := none
  triggerWorkflowId : Option Nat := none
  triggerInputTemplate : Option (List (String × JVal)) := none
  cooldownSeconds : Int
  createdBy : Nat
deriving Repr

/-- `AlertRuleService.Create` (service file, lines 109-141): the rule is
built with `Enabled: true` unconditionally. -/
def alertRuleServiceCreate (input : CreateAlertRuleInput) (newId : Nat) :
    AlertRule :=
  { id := newId
  , tenantId := input.tenantId
  , name := input.name
  , description := input.description
  , enabled := true
  , conditionType := input.conditionType
  , conditionConfig := input.conditionConfig
  , severity := input.severity
  , alertTitleTemplate := input.alertTitleTemplate
  , alertMessageTemplate := input.alertMessageTemplate
  , triggerWorkflowId := input.triggerWorkflowId
  , triggerInputTemplate := input.triggerInputTemplate
  , cooldownSeconds := input.cooldownSeconds
  , lastTriggeredAt := none }

/-- `port.UpdateAlertRuleInput`: every field optional. -/
structure UpdateAlertRuleInput where
  name : Option String := none
  description : Option String := none
  enabled : Option Bool := none
  conditionType : Option String := none
  conditionConfig : Option ThresholdCondition := none
  severity : Option String := none
  alertTitleTemplate : Option String := none
  alertMessageTemplate : Option String := none
  triggerWorkflowId : Option Nat := none
  triggerInputTemplate : Option (List (String × JVal)) := none
  cooldownSeconds : Option Int := none
deriving Repr

/-- `AlertRuleService.Update` (service file, lines 144-195): each provided
field overwrites the current value, absent fields are kept. -/
def alertRuleServiceUpdate (rule : AlertRule) (input : UpdateAlertRuleInput) :
    AlertRule :=
  { rule with
    name := input.name.getD rule.name
  , description := if input.description.isSome then input.description else rule.description
  , enabled := input.enabled.getD rule.enabled
  , conditionType := input.conditionType.getD rule.conditionType
  , conditionConfig := if input.conditionConfig.isSome then input.conditionConfig else rule.conditionConfig
  , severity := input.severity.getD rule.severity
  , alertTitleTemplate := input.alertTitleTemplate.getD rule.alertTitleTemplate
  , alertMessageTemplate := if input.alertMessageTemplate.isSome then input.alertMessageTemplate else rule.alertMessageTemplate
  , triggerWorkflowId := if input.triggerWorkflowId.isSome then input.triggerWorkflowId else rule.triggerWorkflowId
  , triggerInputTemplate := if input.triggerInputTemplate.isSome then input.triggerInputTemplate else rule.triggerInputTemplate
  , cooldownSeconds := input.cooldownSeconds.getD rule.cooldownSeconds }

/-- State visible to `AlertRuleService.Evaluate`: rules and alerts in the
store, plus the workflow ids handed to `workflowService.Execute`. -/
structure SvcState where
  rules : List AlertRule := []
  alerts : List Alert := []
  executeRequests : List Nat := []
  nextId : Nat := 0
deriving Repr

/-- `AlertRuleRepository.FindEnabledByTenant` (the `ListEnabledAlertRules`
query): tenant match and enabled, with no condition on the metric name. -/
def findEnabledByTenant (rules : List AlertRule) (tenantId : Nat) :
    List AlertRule :=
  rules.filter (fun r => r.tenantId == tenantId && r.enabled)

/-- Loop body of `AlertRuleService.Evaluate` (service file, lines 221-252):
cooldown gate, threshold evaluation, alert creation with the RAW
`AlertTitleTemplate` as title, `UpdateLastTriggered`, then
`workflowService.Execute` when a workflow is configured. -/
def svcEvaluateStep (tenantId : Nat) (value : F64) (now : Int)
    (st : SvcState) (rule : AlertRule) : SvcState :=
  if !(rule.canTrigger now) then st
  else
    match rule.evaluateThreshold value with
    | .error _ => st
    | .ok false => st
    | .ok true =>
      let created := alertServiceCreate st.alerts st.nextId
        { tenantId := tenantId
        , severity := rule.severity
        , title := rule.alertTitleTemplate
        , message := rule.alertMessageTemplate
        , triggeredByRuleId := some rule.id }
      let st2 : SvcState :=
        { st with
            alerts := created.1,
            nextId := st.nextId + 1,
            rules := st.rules.map (fun r =>
              if r.id = rule.id then { r with lastTriggeredAt := some now } else r) }
      match rule.triggerWorkflowId with
      | some wid => { st2 with executeRequests := st2.executeRequests ++ [wid] }
      | none => st2

/-- `AlertRuleService.Evaluate` (service file, lines 215-255).  The
`metricName` parameter is carried to mirror the Go signature; as in the
source, the body never reads it. -/
def svcEvaluate (st : SvcState) (tenantId : Nat) (metricName : String)
    (value : F64) (now : Int) : SvcState :=
  (findEnabledByTenant st.rules tenantId).foldl (svcEvaluateStep tenantId value now) st

/-! ## `MetricService.IngestBatch` (internal/core/service/metric.go) -/

/-- `MaxBatchSize` (metric.go line 15). -/
def maxBatchSize : Nat := 10000

/-- `port.IngestMetricInput`. -/
structure IngestMetricInput where
  tenantId : Nat
  name : String
  value : F64
  labels : List (String × String) := []
  source : Option String := none
  timestamp : Option Int := none
deriving Repr

/-- The `Metric` entity as `IngestBatch` builds it. -/
structure Metric where
  id : Nat
  tenantId : Nat
  name : String
  value : F64
  labels : List (String × String)
  source : Option String
  timestamp : Int
  createdAt : Int
deriving Repr

/-- `port.IngestBatchResult`. -/
structure IngestBatchResult where
  ingested : Nat
  failed : Nat
  errors : List String
deriving DecidableEq, Repr

/-- Side effects the claims observe around `IngestBatch`: tenant bindings
(`SetTenantContext`), persisted samples, and the `(tenant, name, value)`
evaluations scheduled by `evaluateBatchAlerts`. -/
structure MetricState where
  boundTenants : List Nat := []
  metrics : List Metric := []
  scheduledEvaluations : List (Nat × String × F64) := []
deriving Repr

/-- Reduction of a batch to its last-seen value per metric name (the
`lastValues` map of `evaluateBatchAlerts`, metric.go lines 352-355),
keyed in first-appearance order. -/
def lastValues (inputs : List IngestMetricInput) : List (String × F64) :=
  inputs.foldl
    (fun acc m =>
      if acc.any (fun kv => kv.1 = m.name)
      then acc.map (fun kv => if kv.1 = m.name then (kv.1, m.value) else kv)
      else acc ++ [(m.name, m.value)])
    []

/-- `MetricService.IngestBatch` (metric.go lines 74-121): reject oversized
batches BEFORE binding the tenant or touching the store; otherwise bind,
convert, `SaveBatch` (outcome supplied by the `saveErr` oracle: `none` =
success), and on success schedule the batch evaluation.  The result pair
mirrors Go's `(*IngestBatchResult, error)`. -/
def ingestBatch (st : MetricState) (tenantId : Nat)
    (inputs : List IngestMetricInput) (now : Int) (firstId : Nat)
    (saveErr : Option String) :
    MetricState × Option IngestBatchResult × Option DomainError :=
  if inputs.length > maxBatchSize then (st, none, some .batchTooLarge)
  else
    let st1 : MetricState := { st with boundTenants := st.boundTenants ++ [tenantId] }
    let ms := inputs.enum.map (fun im =>
      { id := firstId + im.1
      , tenantId := tenantId
      , name := im.2.name
      , value := im.2.value
      , labels := im.2.labels
      , source := im.2.source
      , timestamp := im.2.timestamp.getD now
      , createdAt := now : Metric })
    match saveErr with
    | some msg =>
        (st1, some ⟨0, inputs.length, [msg]⟩, some (.storeError msg))
    | none =>
        ({ st1 with
             metrics := st1.metrics ++ ms,
             scheduledEvaluations := st1.scheduledEvaluations ++
               (lastValues inputs).map (fun kv => (tenantId, kv.1, kv.2)) },
         some ⟨ms.length, 0, []⟩, none)

/-! ## Concrete fixtures used by the theorems below -/

/-- Engine oracle that always starts the workflow. -/
def engineOk : String → String → Except String String := fun _ _ => .ok "run-1"

/-- A cpu_usage sample with value 95. -/
def cpuMetric : MetricData := { name := "cpu_usage", value := F64.fin 95 }

/-- Enabled threshold rule watching `memory_usage` (not `cpu_usage`). -/
def memRule : AlertRule :=
  { id := 1
  , tenantId := 7
  , name := "memory high"
  , enabled := true
  , conditionType := "threshold"
  , conditionConfig := some ⟨"memory_usage", "gt", F64.fin 90⟩
  , severity := "critical"
  , alertTitleTemplate := "memory high"
  , cooldownSeconds := 300 }

/-- Enabled threshold rule watching `cpu_usage` with a templated title. -/
def cpuRule : AlertRule :=
  { id := 2
  , tenantId := 7
  , name := "cpu high"
  , enabled := true
  , conditionType := "threshold"
  , conditionConfig := some ⟨"cpu_usage", "gt", F64.fin 90⟩
  , severity := "critical"
  , alertTitleTemplate := "CPU $\x7bvalue\x7d%"
  , cooldownSeconds := 60 }

/-- Executions linked to a given alert by the `engine_workflow_id` key
`alert-<alert_id>` (the dedup key the specification prescribes). -/
def execsForAlert (s : DBState) (alertId : Nat) : List Execution :=
  s.executions.filter
    (fun e => e.temporalWorkflowId == some ("alert-" ++ uuidStr alertId))

/-- Workflow owned by tenant 8. -/
def wfOther : Workflow := { id := 41, tenantId := 8 }

/-- Workflow owned by tenant 7. -/
def wfOwn : Workflow := { id := 40, tenantId := 7 }

/-- Rule of tenant 7 whose trigger workflow is owned by tenant 8. -/
def mismatchRule : AlertRule :=
  { id := 3
  , tenantId := 7
  , name := "cpu high wf"
  , enabled := true
  , conditionType := "metric_threshold"
  , conditionConfig := some ⟨"cpu_usage", "gt", F64.fin 90⟩
  , severity := "high"
  , alertTitleTemplate := "t"
  , triggerWorkflowId := some 41
  , cooldownSeconds := 60 }

/-- State holding only the foreign-tenant workflow. -/
def mismatchState : DBState := { workflows := [wfOther], nextId := 100 }

/-- Workflow input template whose single leaf is the malformed template
`{{` (unterminated action, a guaranteed parse error). -/
def brokenInput : List (String × JVal) := [("cmd", JVal.str "\x7b\x7b")]

/-- Rule with the malformed workflow input template. -/
def brokenRule : AlertRule :=
  { id := 4
  , tenantId := 7
  , name := "broken input"
  , enabled := true
  , conditionType := "metric_threshold"
  , conditionConfig := some ⟨"cpu_usage", "gt", F64.fin 90⟩
  , severity := "high"
  , alertTitleTemplate := "t"
  , triggerWorkflowId := some 40
  , triggerInputTemplate := some brokenInput
  , cooldownSeconds := 60 }

/-- Rule of tenant 7 triggering its own workflow, no input template. -/
def doubleRule : AlertRule :=
  { id := 5
  , tenantId := 7
  , name := "cpu high own wf"
  , enabled := true
  , conditionType := "metric_threshold"
  , conditionConfig := some ⟨"cpu_usage", "gt", F64.fin 90⟩
  , severity := "high"
  , alertTitleTemplate := "t"
  , triggerWorkflowId := some 40
  , cooldownSeconds := 60 }

/-- An already-created alert the bridge is invoked for. -/
def bridgeAlert : Alert :=
  { id := 99, tenantId := 7, severity := "high", title := "t", status := .opened }

/-- State with the owned workflow and the existing alert. -/
def bridgeState : DBState :=
  { workflows := [wfOwn], alerts := [bridgeAlert], nextId := 100 }

/-- Template context for `cpuMetric` under `brokenRule`. -/
def brokenTd : List (String × TplVal) :=
  toTemplateData cpuMetric (parsedCondition brokenRule) brokenRule.name
    brokenRule.severity

/-- An alert already resolved. -/
def resolvedAlert : Alert :=
  { id := 6, tenantId := 7, severity := "info", title := "t", status := .resolved }

/-- One valid batch sample. -/
def sampleInput : IngestMetricInput :=
  { tenantId := 7, name := "cpu_usage", value := F64.fin 1 }

/-- Rule last triggered at time 0 with a 60 s cooldown. -/
def cooldownRule : AlertRule :=
  { id := 8
  , tenantId := 7
  , name := "cooling down"
  , enabled := true
  , conditionType := "metric_threshold"
  , conditionConfig := some ⟨"cpu_usage", "gt", F64.fin 90⟩
  , severity := "high"
  , alertTitleTemplate := "t"
  , cooldownSeconds := 60
  , lastTriggeredAt := some 0 }

/-! ## Claim theorems -/

/-- C1: `AlertRuleService.Evaluate` never reads its `metricName` argument,
so an enabled `threshold` rule whose `condition_config.metric_name` is
`memory_usage` fires on a `cpu_usage` sample of 95 (95 > 90): an alert
with `triggered_by_rule_id` pointing at that rule is created.  The
alertrule-package evaluator (`evaluateRule`) would have skipped the rule
for the same sample, witnessing the intended behavior. -/
theorem svcEvaluate_ignores_metric_name :
    ((svcEvaluate { rules := [memRule], nextId := 10 } 7 "cpu_usage"
        (F64.fin 95) 0).alerts.map (fun a => (a.triggeredByRuleId, a.status)))
      = [(some 1, AlertStatus.triggered)]
    ∧ condMetricName memRule = some "memory_usage"
    ∧ evaluateRule memRule cpuMetric = .ok false := by
  refine ⟨?_, rfl, rfl⟩
  rfl

/-- C5 counterexample: the `ne` operator is Go `!=`, whose IEEE-754
semantics make `NaN != 1` TRUE, so a NaN value fires a `ne` rule instead
of evaluating to false as the claim states. -/
theorem applyOperator_ne_nan_cex :
    applyOperator "ne" F64.nan (F64.fin 1) = some true := by
  rfl

/-- C5 amended: for the ordering operators and `eq`, a NaN on either side
evaluates to false; for `ne` a NaN on either side evaluates to TRUE. -/
theorem applyOperator_nan (v t : F64) (h : v = F64.nan ∨ t = F64.nan) :
    applyOperator "gt" v t = some false
    ∧ applyOperator "gte" v t = some false
    ∧ applyOperator "lt" v t = some false
    ∧ applyOperator "lte" v t = some false
    ∧ applyOperator "eq" v t = some false
    ∧ applyOperator "ne" v t = some true := by
  rcases h with h | h
  · subst h
    cases t <;>
      simp [applyOperator, operators, List.lookup, F64.fgt, F64.fge, F64.flt,
        F64.fle, F64.feq, F64.fne]
  · subst h
    cases v <;>
      simp [applyOperator, operators, List.lookup, F64.fgt, F64.fge, F64.flt,
        F64.fle, F64.feq, F64.fne]

/-- C5 witness for the amended theorem at `(NaN, 1)`. -/
theorem applyOperator_nan_witness :
    applyOperator "gt" F64.nan (F64.fin 1) = some false
    ∧ applyOperator "gte" F64.nan (F64.fin 1) = some false
    ∧ applyOperator "lt" F64.nan (F64.fin 1) = some false
    ∧ applyOperator "lte" F64.nan (F64.fin 1) = some false
    ∧ applyOperator "eq" F64.nan (F64.fin 1) = some false
    ∧ applyOperator "ne" F64.nan (F64.fin 1) = some true :=
  applyOperator_nan F64.nan (F64.fin 1) (Or.inl rfl)

/-- C7: the service-layer evaluator stores the RAW `alert_title_template`
as the alert title (no rendering), so a firing of `cpuRule` on value 95
yields the title `CPU ${value}%`, although rendering that template against
the rule + sample context succeeds and yields `CPU 95%` — which is
exactly the title the alertrule-package evaluator (`triggerAlert`)
produces for the same rule and sample. -/
theorem svcEvaluate_title_not_rendered :
    ((svcEvaluate { rules := [cpuRule], nextId := 0 } 7 "cpu_usage"
        (F64.fin 95) 0).alerts.map (fun a => a.title)) = ["CPU $\x7bvalue\x7d%"]
    ∧ renderTemplate "CPU $\x7bvalue\x7d%"
        (toTemplateData cpuMetric (parsedCondition cpuRule) cpuRule.name
          cpuRule.severity) = .ok "CPU 95%"
    ∧ ((triggerAlert { rules := [cpuRule], nextId := 0 } 7 cpuRule cpuMetric
          engineOk 0).1.alerts.map (fun a => a.title)) = ["CPU 95%"] := by
  exact ⟨rfl, rfl, rfl⟩

/-- C10: `AlertRuleService.Create` returns a rule with `Enabled = true`
unconditionally (the create input carries no enabled field), and an
update yields a disabled rule exactly when the caller passes
`enabled = false` or the rule was already disabled and the field is not
provided. -/
theorem alertRuleServiceCreate_enabled (input : CreateAlertRuleInput)
    (newId : Nat) (r : AlertRule) (u : UpdateAlertRuleInput) :
    (alertRuleServiceCreate input newId).enabled = true
    ∧ ((alertRuleServiceUpdate r u).enabled = false ↔
        (u.enabled = some false ∨ (u.enabled = none ∧ r.enabled = false))) := by
  refine ⟨rfl, ?_⟩
  rcases hu : u.enabled with _ | b
  · simp [alertRuleServiceUpdate, hu]
  · cases b <;> simp [alertRuleServiceUpdate, hu]

/-- Helper: filtering after a map that preserves the predicate keeps the
filtered length. -/
theorem filter_length_map_preserve (l : List Execution)
    (f : Execution → Execution) (p : Execution → Bool)
    (h : ∀ e, p (f e) = p e) :
    ((l.map f).filter p).length = (l.filter p).length := by
  induction l with
  | nil => rfl
  | cons e tl ih =>
      simp only [List.map_cons, List.filter_cons, h e]
      cases hpe : p e <;> simp [hpe, ih]

/-- Helper: a status/run-id update that keeps `temporal_workflow_id`
does not change which executions are keyed to an alert. -/
theorem filter_length_map_tw (l : List Execution) (f : Execution → Execution)
    (h : ∀ e, (f e).temporalWorkflowId = e.temporalWorkflowId) (aid : Nat) :
    ((l.map f).filter
        (fun e => e.temporalWorkflowId == some ("alert-" ++ uuidStr aid))).length
      = (l.filter
          (fun e => e.temporalWorkflowId == some ("alert-" ++ uuidStr aid))).length :=
  filter_length_map_preserve l f _ (fun e => by rw [h e])

/-- C2: when the fired rule's `trigger_workflow_id` resolves to a workflow
of a different tenant, the bridge fails with the tenant-mismatch error and
inserts no execution row, while `triggerAlert` has already created (and
keeps) the alert. -/
theorem triggerAlert_tenant_mismatch (s : DBState) (tenantId : Nat)
    (rule : AlertRule) (metric : MetricData)
    (engine : String → String → Except String String) (now : Int)
    (wid : Nat) (w : Workflow)
    (hw : rule.triggerWorkflowId = some wid)
    (hfind : findWorkflow s.workflows wid = some w)
    (hmm : w.tenantId ≠ tenantId) :
    (triggerAlert s tenantId rule metric engine now).1.executions = s.executions
    ∧ (triggerAlert s tenantId rule metric engine now).2 = some BridgeErr.tenantMismatch
    ∧ ∃ title msg,
        (triggerAlert s tenantId rule metric engine now).1.alerts
          = s.alerts ++
            [{ id := s.nextId
             , tenantId := tenantId
             , severity := rule.severity
             , title := title
             , message := msg
             , status := .opened
             , source := some metric.source
             , triggeredByRuleId := some rule.id }] := by
  simp only [triggerAlert, triggerWorkflow, hw, hfind, hmm, if_true, ite_not]
  simp [hmm]

/-- C2 witness: concrete cross-tenant trigger. -/
theorem triggerAlert_tenant_mismatch_witness :
    (triggerAlert mismatchState 7 mismatchRule cpuMetric engineOk 0).1.executions
      = mismatchState.executions
    ∧ (triggerAlert mismatchState 7 mismatchRule cpuMetric engineOk 0).2
      = some BridgeErr.tenantMismatch :=
  ⟨(triggerAlert_tenant_mismatch mismatchState 7 mismatchRule cpuMetric engineOk 0
      41 wfOther rfl rfl (by decide)).1,
   (triggerAlert_tenant_mismatch mismatchState 7 mismatchRule cpuMetric engineOk 0
      41 wfOther rfl rfl (by decide)).2.1⟩

/-- C3 counterexample: the workflow input leaf `{{` fails to render, yet
the bridge keeps the RAW string as the input value and starts the
execution (status `running`), instead of failing closed with the
execution marked failed. -/
theorem renderInputTemplate_fail_open_cex :
    renderTemplate "\x7b\x7b" brokenTd = .error ()
    ∧ ((triggerWorkflow bridgeState 7 brokenRule bridgeAlert cpuMetric brokenTd
          engineOk 0).1.executions.map (fun e => (e.status, e.input)))
        = [("running", [("cmd", JVal.str "\x7b\x7b")])] :=
  ⟨rfl, rfl⟩

/-- C3 amended: on a template error the raw template string IS used as the
rendered value of that leaf (the bridge falls back instead of failing
closed). -/
theorem renderInputTemplate_keeps_raw (entries : List (String × JVal))
    (data : List (String × TplVal)) (k s : String)
    (hmem : (k, JVal.str s) ∈ entries)
    (herr : renderTemplate s data = .error ()) :
    (k, JVal.str s) ∈ renderInputTemplate entries data := by
  induction entries with
  | nil => cases hmem
  | cons hd tl ih =>
      rcases hd with ⟨k2, v2⟩
      rw [List.mem_cons] at hmem
      rcases hmem with hmem | hmem
      · rw [Prod.mk.injEq] at hmem
        rw [← hmem.1, ← hmem.2]
        have hv : renderInputValue data (JVal.str s) = JVal.str s := by
          rw [renderInputValue, herr]
        show (k, JVal.str s) ∈
          (k, renderInputValue data (JVal.str s)) :: renderInputTemplate tl data
        rw [hv]
        exact List.mem_cons_self _ _
      · exact List.mem_cons_of_mem _ (ih hmem)

/-- C3 witness: the malformed leaf of `brokenInput` survives raw. -/
theorem renderInputTemplate_keeps_raw_witness :
    ("cmd", JVal.str "\x7b\x7b") ∈ renderInputTemplate brokenInput brokenTd :=
  renderInputTemplate_keeps_raw brokenInput brokenTd "cmd" "\x7b\x7b"
    (by simp [brokenInput]) rfl

/-- C4 counterexample: `CreateExecution` is a plain INSERT, so invoking the
bridge twice for the SAME alert leaves two execution rows keyed
`alert-99`, refuting "at most one Execution record". -/
theorem createExecution_not_upsert_cex :
    ¬ ((execsForAlert
          ((triggerWorkflow
              ((triggerWorkflow bridgeState 7 doubleRule bridgeAlert cpuMetric []
                  engineOk 0).1)
              7 doubleRule bridgeAlert cpuMetric [] engineOk 0).1)
          bridgeAlert.id).length ≤ 1) := by
  decide

/-- C4 amended: every bridge invocation that reaches the persistence step
(workflow found, tenant matches) appends a fresh execution row keyed
`alert-<alert_id>`; nothing deduplicates on that key, so n invocations
yield n rows. -/
theorem triggerWorkflow_appends_execution (s : DBState) (tenantId : Nat)
    (rule : AlertRule) (alert : Alert) (metric : MetricData)
    (templateData : List (String × TplVal))
    (engine : String → String → Except String String) (now : Int)
    (wid : Nat) (w : Workflow)
    (hw : rule.triggerWorkflowId = some wid)
    (hfind : findWorkflow s.workflows wid = some w)
    (hten : w.tenantId = tenantId) :
    (execsForAlert
        (triggerWorkflow s tenantId rule alert metric templateData engine now).1
        alert.id).length
      = (execsForAlert s alert.id).length + 1 := by
  simp only [triggerWorkflow, hw, hfind, hten, ne_eq, not_true_eq_false,
    if_false, ite_self]
  split
  · simp only [execsForAlert]
    rw [filter_length_map_tw _ _
      (fun e => by by_cases he : e.id = s.nextId <;> simp [he]) alert.id]
    rw [List.filter_append, List.length_append]
    simp
  · simp only [execsForAlert]
    rw [filter_length_map_tw _ _
      (fun e => by by_cases he : e.id = s.nextId <;> simp [he]) alert.id]
    rw [List.filter_append, List.length_append]
    simp

/-- C4 witness: one concrete bridge invocation adds one keyed row. -/
theorem triggerWorkflow_appends_execution_witness :
    (execsForAlert
        (triggerWorkflow bridgeState 7 doubleRule bridgeAlert cpuMetric []
          engineOk 0).1 bridgeAlert.id).length
      = (execsForAlert bridgeState bridgeAlert.id).length + 1 :=
  triggerWorkflow_appends_execution bridgeState 7 doubleRule bridgeAlert cpuMetric
    [] engineOk 0 40 wfOwn rfl rfl rfl

/-- C6: `CanTrigger` holds exactly when the rule is enabled and either has
never triggered or `now - last_triggered_at ≥ cooldown_seconds`; and the
evaluator's candidate query `GetAlertRulesForMetric` never returns a rule
whose last firing is more recent than its cooldown. -/
theorem canTrigger_iff_cooldown (r : AlertRule) (now : Int) :
    (r.canTrigger now = true ↔
      (r.enabled = true ∧ (r.lastTriggeredAt = none ∨
        ∃ last, r.lastTriggeredAt = some last ∧
          now - last ≥ r.cooldownSeconds * nsPerSecond)))
    ∧ ∀ (rules : List AlertRule) (tenantId : Nat) (metricName : String) (last : Int),
        r.lastTriggeredAt = some last →
        now - last < r.cooldownSeconds * nsPerSecond →
        r ∉ getAlertRulesForMetric rules tenantId metricName now := by
  constructor
  · unfold AlertRule.canTrigger
    rcases hl : r.lastTriggeredAt with _ | last <;> cases he : r.enabled <;>
      simp [he, hl]
  · intro rules tenantId metricName last hl hrecent hmem
    rw [getAlertRulesForMetric, List.mem_filter] at hmem
    have hp := hmem.2
    rw [hl] at hp
    simp only [Bool.and_eq_true, decide_eq_true_eq] at hp
    have h2 := hp.2
    generalize hC : r.cooldownSeconds * nsPerSecond = C at h2 hrecent
    omega

/-- C6 witness: a rule last fired at t = 0 with a 60 s cooldown can
trigger at t = 60 s, and is skipped by the candidate query at t = 5 ns. -/
theorem canTrigger_iff_cooldown_witness :
    cooldownRule.canTrigger (60 * nsPerSecond) = true
    ∧ cooldownRule ∉ getAlertRulesForMetric [cooldownRule] 7 "cpu_usage" 5 :=
  ⟨(canTrigger_iff_cooldown cooldownRule (60 * nsPerSecond)).1.mpr
     ⟨rfl, Or.inr ⟨0, rfl, by decide⟩⟩,
   (canTrigger_iff_cooldown cooldownRule 5).2 [cooldownRule] 7 "cpu_usage" 0
     rfl (by decide)⟩

/-- C8: `IngestBatch` rejects a batch larger than 10000 with the
batch-too-large error BEFORE any side effect (state unchanged: no tenant
binding, no persisted sample, no scheduled evaluation), while a batch of
exactly 10000 passes the cap and, with the store succeeding, is fully
ingested. -/
theorem ingestBatch_cap (st : MetricState) (tenantId : Nat)
    (inputs : List IngestMetricInput) (now : Int) (firstId : Nat)
    (saveErr : Option String) :
    (inputs.length > maxBatchSize →
      ingestBatch st tenantId inputs now firstId saveErr
        = (st, none, some DomainError.batchTooLarge))
    ∧ (inputs.length = maxBatchSize →
        (ingestBatch st tenantId inputs now firstId none).2.2 = none
        ∧ (ingestBatch st tenantId inputs now firstId none).2.1
            = some ⟨maxBatchSize, 0, []⟩
        ∧ (ingestBatch st tenantId inputs now firstId none).1.metrics.length
            = st.metrics.length + maxBatchSize) := by
  constructor
  · intro h
    simp [ingestBatch, h]
  · intro h
    simp [ingestBatch, h]

/-- C8 witness: 10001 samples are rejected with the state untouched;
10000 samples are accepted. -/
theorem ingestBatch_cap_witness :
    ingestBatch {} 7 (List.replicate 10001 sampleInput) 0 0 none
      = ({}, none, some DomainError.batchTooLarge)
    ∧ (ingestBatch {} 7 (List.replicate 10000 sampleInput) 0 0 none).2.2 = none :=
  ⟨(ingestBatch_cap {} 7 (List.replicate 10001 sampleInput) 0 0 none).1
     (by rw [List.length_replicate]; decide),
   ((ingestBatch_cap {} 7 (List.replicate 10000 sampleInput) 0 0 none).2
     (by rw [List.length_replicate]; rfl)).1⟩

/-- C9: `Acknowledge` succeeds exactly on status open/triggered and
`Resolve` exactly on open/triggered/acknowledged; a forbidden transition
returns the already-acknowledged / already-resolved error and leaves the
stored alerts untouched, so `resolved` is terminal. -/
theorem alertService_transitions (alerts : List Alert) (id userId : Nat)
    (now : Int) (a : Alert) (hfind : findAlert alerts id = some a) :
    ((∃ b, (alertServiceAcknowledge alerts id userId now).2 = Except.ok b) ↔
      (a.status = .opened ∨ a.status = .triggered))
    ∧ ((a.status = .acknowledged ∨ a.status = .resolved) →
        alertServiceAcknowledge alerts id userId now
          = (alerts, .error .alertAlreadyAcknowledged))
    ∧ ((∃ b, (alertServiceResolve alerts id userId now).2 = Except.ok b) ↔
        (a.status = .opened ∨ a.status = .triggered ∨ a.status = .acknowledged))
    ∧ (a.status = .resolved →
        alertServiceResolve alerts id userId now
          = (alerts, .error .alertAlreadyResolved)) := by
  refine ⟨?_, ?_, ?_, ?_⟩ <;>
    cases ha : a.status <;>
      simp [alertServiceAcknowledge, alertServiceResolve, hfind,
        Alert.acknowledge, Alert.resolve, Alert.canAcknowledge,
        Alert.canResolve, ha]

/-- C9 witness: on a resolved alert both operations fail without
mutation. -/
theorem alertService_transitions_witness :
    alertServiceAcknowledge [resolvedAlert] 6 9 0
      = ([resolvedAlert], .error .alertAlreadyAcknowledged)
    ∧ alertServiceResolve [resolvedAlert] 6 9 0
      = ([resolvedAlert], .error .alertAlreadyResolved) :=
  ⟨(alertService_transitions [resolvedAlert] 6 9 0 resolvedAlert rfl).2.1
     (Or.inr rfl),
   (alertService_transitions [resolvedAlert] 6 9 0 resolvedAlert rfl).2.2.2 rfl⟩

end Orchestrix
